import Mathlib

/-!
Verification of the s2.term Client Bridge (`src/ts-frontend/src/main.ts`).

The TypeScript frontend (`StreamingTerminal`) is embedded shallowly:

* JS `number | undefined` values (the `since` field, record timestamps)
  become `JSNum`, with JS truthiness made explicit (`undefined`, `NaN`
  and `0` are falsy).
* The mutable fields of `StreamingTerminal` that the streaming logic
  reads and writes (`since`, `speedup`, `lastRecordTimestamp`,
  `isLiveMode`) become `ClientState`; methods become state-passing
  functions.
* Side effects (S2 appends, read subscriptions, pacing sleeps, terminal
  writes, console logging) become an explicit `Action` trace emitted by
  each function, so that temporal claims are claims about traces.
* `speedup` and pacing delays are modelled as rationals; JS numbers are
  floats, but every claim here concerns exact small quotients.
-/

namespace S2Term

/-- A JS `number | undefined` value as it occurs for `since` and for
record timestamps: `undefined`, `NaN`, or an integer of wall-clock
milliseconds. -/
inductive JSNum where
  | undef
  | nan
  | num (n : Int)
deriving DecidableEq

/-- JS truthiness of a `number | undefined`: `undefined`, `NaN` and `0`
are falsy, every other number is truthy. -/
def JSNum.truthy : JSNum → Bool
  | .undef => false
  | .nan => false
  | .num n => n != 0

/-- The numeric value of a `JSNum`; only meaningful under a `truthy`
guard, exactly as the source only uses the number behind one. -/
def JSNum.val : JSNum → Int
  | .num n => n
  | _ => 0

/-- Value of a list of decimal digit characters. -/
def digitsVal (ds : List Char) : Nat :=
  ds.foldl (fun a c => 10 * a + (c.toNat - 48)) 0

/-- Model of JS `parseInt(s)` with the default radix on ordinary decimal
input: skip leading spaces, read an optional sign and then the longest
prefix of decimal digits; `NaN` when that prefix is empty. -/
def jsParseInt (s : String) : JSNum :=
  let cs := s.data.dropWhile (fun c => c = ' ')
  match cs with
  | '-' :: rest =>
      let ds := rest.takeWhile Char.isDigit
      if ds.isEmpty then .nan else .num (-(digitsVal ds : Int))
  | '+' :: rest =>
      let ds := rest.takeWhile Char.isDigit
      if ds.isEmpty then .nan else .num (digitsVal ds)
  | _ =>
      let ds := cs.takeWhile Char.isDigit
      if ds.isEmpty then .nan else .num (digitsVal ds)

/-- `this.since` as computed in `startSetupFlow`:
`sinceParam ? parseInt(sinceParam) : undefined`.  An absent parameter —
and, by JS string truthiness, an empty one — yields `undefined`. -/
def computeSince (sinceParam : Option String) : JSNum :=
  match sinceParam with
  | none => .undef
  | some s => if s = "" then .undef else jsParseInt s

/-- Input-log stream name derived from the session number
(`startSetupFlow` / `processSetupInput`). -/
def keystrokesStream (sessionNumber : String) : String :=
  "sessions/" ++ sessionNumber ++ "/term_input"

/-- Output-log stream name derived from the session number. -/
def ptyStream (sessionNumber : String) : String :=
  "sessions/" ++ sessionNumber ++ "/term_output"

/-- The Session Addressing function: both stream names from one
session id. -/
def deriveStreamNames (sessionNumber : String) : String × String :=
  (keystrokesStream sessionNumber, ptyStream sessionNumber)

/-- The setup-flow states of `StreamingTerminal`. -/
inductive SetupState where
  | GREETING
  | COLLECTING_BASIN
  | COLLECTING_SESSION
  | COLLECTING_TOKEN
  | TESTING_CONNECTION
  | STREAMING
deriving DecidableEq

/-- The mutable fields of `StreamingTerminal` read and written by the
streaming path. -/
structure ClientState where
  since : JSNum
  speedup : ℚ
  lastRecordTimestamp : JSNum
  isLiveMode : Bool
deriving DecidableEq

/-- A record as delivered by an S2 read (`SequencedRecord`): the fields
the Client Bridge inspects. -/
structure SequencedRecord where
  seqNum : Nat
  timestamp : JSNum
  body : Option String
deriving DecidableEq

/-- A record as passed to `records.append`. -/
structure AppendRecord where
  body : String
  headers : List (String × String)
  timestamp : Int
deriving DecidableEq

/-- The start position of an S2 read request (`readParams`): an explicit
timestamp, or an offset from the tail. -/
inductive ReadStart where
  | timestamp (t : Int)
  | tailOffset (k : Nat)
deriving DecidableEq

/-- An observable effect of the Client Bridge. -/
inductive Action where
  | append (stream : String) (records : List AppendRecord)
  | readRequest (start : ReadStart)
  | sleep (ms : ℚ)
  | writeln (line : String)
  | render (body : String)
  | consoleError (msg : String)
  | consoleLog (msg : String)
  | setupInput (data : String)
deriving DecidableEq

/-- Whether an action is an append to a stream. -/
def Action.isAppend : Action → Bool
  | .append _ _ => true
  | _ => false

/-- Whether an action is a read-subscription request. -/
def Action.isReadRequest : Action → Bool
  | .readRequest _ => true
  | _ => false

/-- Whether an action is a pacing sleep. -/
def Action.isSleep : Action → Bool
  | .sleep _ => true
  | _ => false

/-- The start-position choice of `startS2Streaming` (lines 266-275): a
truthy `since` selects replay from that timestamp; otherwise the read
starts at `tailOffset = 0` and `isLiveMode` is set. -/
def chooseReadStart (st : ClientState) : ReadStart × ClientState :=
  if st.since.truthy then (.timestamp st.since.val, st)
  else (.tailOffset 0, { st with isLiveMode := true })

/-- Result of processing one delivered record. -/
structure ProcStep where
  state : ClientState
  enteredLive : Bool
  delay : ℚ
  actions : List Action
deriving DecidableEq

/-- Embedding of `processRecord` (lines 315-349): the live catch-up
check, then replay pacing (skipped once live), then the unconditional
`lastRecordTimestamp` update, then rendering the body.  `delay` is the
time suspended before rendering (`0` when the code does not sleep). -/
def processRecord (st : ClientState) (now : Int) (r : SequencedRecord) : ProcStep :=
  let entering :=
    r.timestamp.truthy && decide (now - r.timestamp.val ≤ 5000) &&
      (!st.isLiveMode && st.since.truthy)
  let st1 := if entering then { st with isLiveMode := true } else st
  let delay : ℚ :=
    if st1.since.truthy && !st1.isLiveMode && r.timestamp.truthy &&
        st1.lastRecordTimestamp.truthy then
      let timeDiff : Int := r.timestamp.val - st1.lastRecordTimestamp.val
      let adjusted : ℚ := (timeDiff : ℚ) / st1.speedup
      if 0 < adjusted then adjusted else 0
    else 0
  let st2 := { st1 with lastRecordTimestamp := r.timestamp }
  { state := st2
    enteredLive := entering
    delay := delay
    actions :=
      (if entering then [.writeln "\x1b[32m[Live mode activated]\x1b[0m"] else []) ++
      (if 0 < delay then [.sleep delay] else []) ++
      [.render (r.body.getD "")] }

/-- The `for await` loop of `startS2Streaming`: deliveries are processed
in order, each with the wall clock at its delivery time. -/
def streamLoop (st : ClientState) : List (Int × SequencedRecord) → List Action × ClientState
  | [] => ([], st)
  | (now, r) :: rest =>
      let pr := processRecord st now r
      let tail := streamLoop pr.state rest
      (pr.actions ++ tail.1, tail.2)

/-- How a read stream ends: cleanly, or with an error thrown into the
`catch` block of `startS2Streaming`. -/
inductive StreamOutcome where
  | ended
  | failed (err : String)
deriving DecidableEq

/-- Embedding of `startS2Streaming` (lines 257-302): exactly one read
request is issued (from `since`, or from the tail), delivered records
are processed in order, and a stream failure is logged and rendered —
the `catch` block performs no re-subscription. -/
def runStreaming (st : ClientState) (deliveries : List (Int × SequencedRecord))
    (outcome : StreamOutcome) : List Action × ClientState :=
  let startChoice := chooseReadStart st
  let loop := streamLoop startChoice.2 deliveries
  let tailActs : List Action :=
    match outcome with
    | .ended => []
    | .failed err =>
        [.consoleError ("S2 streaming error: " ++ err),
         .writeln ("\x1b[31mStreaming error: " ++ err ++ "\x1b[0m")]
  (Action.readRequest startChoice.1 :: (loop.1 ++ tailActs), loop.2)

/-- The single record built by `sendWindowResize` (lines 238-248). -/
def windowRecord (cols rows : Nat) (now : Int) : AppendRecord :=
  { body := ""
    headers := [("type", "window"), ("rows", toString rows), ("cols", toString cols)]
    timestamp := now }

/-- Embedding of `sendKeystroke` (lines 212-230): one append of a single
`keystroke` record; `ok` is whether the append succeeded.  A failure is
caught and logged — the function neither retries nor rethrows. -/
def sendKeystroke (stream : String) (data : String) (now : Int) (ok : Bool) : List Action :=
  [.append stream [{ body := data, headers := [("type", "keystroke")], timestamp := now }]] ++
  (if ok then [] else [.consoleError "Failed to send keystroke to S2:"])

/-- Embedding of `sendWindowResize` (lines 232-255): one append of a
single `window` record; a failure is caught and logged, a success is
logged to the console. -/
def sendWindowResize (stream : String) (cols rows : Nat) (now : Int) (ok : Bool) : List Action :=
  [.append stream [windowRecord cols rows now]] ++
  (if ok then [.consoleLog ("Sent window resize: " ++ toString cols ++ "x" ++ toString rows)]
   else [.consoleError "Failed to send window resize to S2:"])

/-- A user-facing terminal event delivered to the handlers installed by
`setupEventHandlers`. -/
inductive InputEvent where
  | onData (data : String)
  | onResize (cols rows : Nat)
deriving DecidableEq

/-- Embedding of `setupEventHandlers` (lines 115-130): typed data is
forwarded to the input log only in `STREAMING`, otherwise it drives the
setup flow; a resize is always logged and is forwarded only in
`STREAMING`. -/
def handleInputEvent (setupState : SetupState) (stream : String) (now : Int)
    (ev : InputEvent) (ok : Bool) : List Action :=
  match ev with
  | .onData data =>
      if setupState = SetupState.STREAMING then sendKeystroke stream data now ok
      else [.setupInput data]
  | .onResize cols rows =>
      [.consoleLog ("Terminal resized to " ++ toString cols ++ "x" ++ toString rows)] ++
      (if setupState = SetupState.STREAMING then sendWindowResize stream cols rows now ok
       else [])

/-- A sequence of input events handled while `STREAMING`, each with its
wall-clock time and append outcome. -/
def forwardInputs (stream : String) : List (InputEvent × Int × Bool) → List Action
  | [] => []
  | (ev, now, ok) :: rest =>
      handleInputEvent SetupState.STREAMING stream now ev ok ++ forwardInputs stream rest

/-- The success path of `testS2Connection` (lines 195-201) followed by
`startS2Streaming`: enter `STREAMING`, send the initial window record,
then run the streaming loop. -/
def connectAndStream (stream : String) (cols rows : Nat) (now : Int) (ok : Bool)
    (st : ClientState) (deliveries : List (Int × SequencedRecord))
    (outcome : StreamOutcome) : SetupState × List Action × ClientState :=
  let resizeActs := sendWindowResize stream cols rows now ok
  let run := runStreaming st deliveries outcome
  (SetupState.STREAMING, resizeActs ++ run.1, run.2)

/-- The step trace of the `for await` loop: the `ProcStep` produced for
each delivery, state threaded in order. -/
def procSteps (st : ClientState) : List (Int × SequencedRecord) → List ProcStep
  | [] => []
  | (now, r) :: rest =>
      let pr := processRecord st now r
      pr :: procSteps pr.state rest

/-! ### Helper lemmas -/

theorem if_pos_eq_max (a : ℚ) : (if 0 < a then a else 0) = max a 0 := by
  rcases le_or_lt a 0 with h | h
  · simp [not_lt.mpr h, max_eq_right h]
  · simp [h, max_eq_left h.le]

theorem processRecord_isLiveMode_mono (st : ClientState) (now : Int) (r : SequencedRecord)
    (h : st.isLiveMode = true) : (processRecord st now r).state.isLiveMode = true := by
  simp only [processRecord]
  split <;> simp [h]

theorem processRecord_since_eq (st : ClientState) (now : Int) (r : SequencedRecord) :
    (processRecord st now r).state.since = st.since := by
  simp only [processRecord]
  split <;> rfl

theorem processRecord_delay_of_live (st : ClientState) (now : Int) (r : SequencedRecord)
    (h : st.isLiveMode = true) : (processRecord st now r).delay = 0 := by
  simp [processRecord, h]

theorem processRecord_no_append (st : ClientState) (now : Int) (r : SequencedRecord) :
    (processRecord st now r).actions.filter Action.isAppend = [] := by
  simp only [processRecord, List.filter_append]
  split <;> split <;> simp [Action.isAppend]

theorem processRecord_no_readRequest (st : ClientState) (now : Int) (r : SequencedRecord) :
    (processRecord st now r).actions.filter Action.isReadRequest = [] := by
  simp only [processRecord, List.filter_append]
  split <;> split <;> simp [Action.isReadRequest]

theorem streamLoop_isLiveMode_mono (evs : List (Int × SequencedRecord)) (st : ClientState)
    (h : st.isLiveMode = true) : ((streamLoop st evs).2).isLiveMode = true := by
  induction evs generalizing st with
  | nil => exact h
  | cons p rest ih =>
      obtain ⟨now, r⟩ := p
      exact ih _ (processRecord_isLiveMode_mono st now r h)

theorem streamLoop_no_append (evs : List (Int × SequencedRecord)) (st : ClientState) :
    ((streamLoop st evs).1).filter Action.isAppend = [] := by
  induction evs generalizing st with
  | nil => rfl
  | cons p rest ih =>
      obtain ⟨now, r⟩ := p
      simp [streamLoop, List.filter_append, processRecord_no_append, ih]

theorem streamLoop_no_readRequest (evs : List (Int × SequencedRecord)) (st : ClientState) :
    ((streamLoop st evs).1).filter Action.isReadRequest = [] := by
  induction evs generalizing st with
  | nil => rfl
  | cons p rest ih =>
      obtain ⟨now, r⟩ := p
      simp [streamLoop, List.filter_append, processRecord_no_readRequest, ih]

theorem processRecord_silent_of_since_falsy (st : ClientState) (now : Int)
    (r : SequencedRecord) (h : st.since.truthy = false) :
    (processRecord st now r).delay = 0 ∧ (processRecord st now r).enteredLive = false := by
  simp [processRecord, h]

theorem procSteps_silent_of_since_falsy (evs : List (Int × SequencedRecord))
    (st : ClientState) (h : st.since.truthy = false) :
    ∀ pr ∈ procSteps st evs, pr.delay = 0 ∧ pr.enteredLive = false := by
  induction evs generalizing st with
  | nil => intro pr hpr; simp [procSteps] at hpr
  | cons p rest ih =>
      obtain ⟨now, r⟩ := p
      intro pr hpr
      simp only [procSteps, List.mem_cons] at hpr
      rcases hpr with hpr | hpr
      · subst hpr; exact processRecord_silent_of_since_falsy st now r h
      · exact ih _ (by rw [processRecord_since_eq]; exact h) pr hpr

theorem handleInputEvent_streaming_one_append (stream : String) (now : Int)
    (ev : InputEvent) (ok : Bool) :
    ((handleInputEvent SetupState.STREAMING stream now ev ok).filter Action.isAppend).length
      = 1 := by
  cases ev <;> cases ok <;>
    simp [handleInputEvent, sendKeystroke, sendWindowResize, Action.isAppend]

theorem forwardInputs_append_count (stream : String) (evs : List (InputEvent × Int × Bool)) :
    ((forwardInputs stream evs).filter Action.isAppend).length = evs.length := by
  induction evs with
  | nil => rfl
  | cons p rest ih =>
      obtain ⟨ev, now, ok⟩ := p
      simp [forwardInputs, List.filter_append, handleInputEvent_streaming_one_append, ih]
      omega

theorem runStreaming_no_append (st : ClientState) (deliveries : List (Int × SequencedRecord))
    (outcome : StreamOutcome) :
    ((runStreaming st deliveries outcome).1).filter Action.isAppend = [] := by
  cases outcome <;>
    simp [runStreaming, List.filter_append, streamLoop_no_append, Action.isAppend]

theorem runStreaming_readRequests (st : ClientState) (deliveries : List (Int × SequencedRecord))
    (outcome : StreamOutcome) :
    ((runStreaming st deliveries outcome).1).filter Action.isReadRequest =
      [Action.readRequest (chooseReadStart st).1] := by
  cases outcome <;>
    simp [runStreaming, List.filter_append, streamLoop_no_readRequest, Action.isReadRequest]

theorem processRecord_replay_delay (st : ClientState) (now : Int) (r : SequencedRecord)
    (h1 : st.since.truthy = true) (h2 : st.isLiveMode = false)
    (h3 : r.timestamp.truthy = true) (h4 : st.lastRecordTimestamp.truthy = true)
    (h5 : 5000 < now - r.timestamp.val) :
    (processRecord st now r).delay =
      max (((r.timestamp.val - st.lastRecordTimestamp.val : Int) : ℚ) / st.speedup) 0 := by
  have hc : ¬ now ≤ 5000 + r.timestamp.val := by omega
  simp [processRecord, h1, h2, h3, h4, hc, if_pos_eq_max]

theorem processRecord_updates_last (st : ClientState) (now : Int) (r : SequencedRecord) :
    (processRecord st now r).state.lastRecordTimestamp = r.timestamp := by
  simp only [processRecord]

/-! ### Claims -/

/-- C1: during replay (a truthy `since`, not yet live, and a record old
enough not to trigger the live catch-up), if `lastRecordTimestamp` is
set the bridge suspends for `max ((timestamp - lastRecordTimestamp) /
speedup) 0` before rendering; `lastRecordTimestamp` is updated to the
record's timestamp after every record regardless of mode; and for two
records 5000 ms apart at `speedup = 5` the computed delay is 1000 ms. -/
theorem c1_replay_pacing :
    (∀ (st : ClientState) (now : Int) (r : SequencedRecord),
        st.since.truthy = true → st.isLiveMode = false →
        r.timestamp.truthy = true → st.lastRecordTimestamp.truthy = true →
        5000 < now - r.timestamp.val →
        (processRecord st now r).delay =
          max (((r.timestamp.val - st.lastRecordTimestamp.val : Int) : ℚ) / st.speedup) 0)
    ∧ (∀ (st : ClientState) (now : Int) (r : SequencedRecord),
        (processRecord st now r).state.lastRecordTimestamp = r.timestamp)
    ∧ (processRecord
        { since := JSNum.num 1, speedup := 5,
          lastRecordTimestamp := JSNum.num 1000000, isLiveMode := false }
        2000000
        { seqNum := 1, timestamp := JSNum.num 1005000, body := some "x" }).delay = 1000 := by
  refine ⟨processRecord_replay_delay, processRecord_updates_last, ?_⟩
  rw [processRecord_replay_delay _ _ _ (by decide) rfl (by decide) (by decide) (by decide)]
  norm_num [JSNum.val]

/-- Witness for C1: the pacing equation instantiated at two records
5000 ms apart with `speedup = 5`. -/
theorem c1_replay_pacing_witness :
    (processRecord
      { since := JSNum.num 1, speedup := 5,
        lastRecordTimestamp := JSNum.num 1000000, isLiveMode := false }
      2000000
      { seqNum := 1, timestamp := JSNum.num 1005000, body := some "x" }).delay =
      max (((1005000 - 1000000 : Int) : ℚ) / 5) 0 :=
  c1_replay_pacing.1 _ 2000000 _ (by decide) rfl (by decide) (by decide) (by decide)

/-- C2: the live-catch-up transition is one-way — `processRecord` never
clears `isLiveMode`, hence neither does any sequence of deliveries, and
`chooseReadStart` (the only other writer of the flag) never clears it
either. -/
theorem c2_live_one_way :
    (∀ (st : ClientState) (now : Int) (r : SequencedRecord),
        st.isLiveMode = true → (processRecord st now r).state.isLiveMode = true)
    ∧ (∀ (st : ClientState) (evs : List (Int × SequencedRecord)),
        st.isLiveMode = true → ((streamLoop st evs).2).isLiveMode = true)
    ∧ (∀ st : ClientState, st.isLiveMode = true →
        ((chooseReadStart st).2).isLiveMode = true) := by
  refine ⟨processRecord_isLiveMode_mono, fun st evs h => streamLoop_isLiveMode_mono evs st h, ?_⟩
  intro st h
  simp only [chooseReadStart]
  split <;> simp [h]

/-- Witness for C2: a live session stays live across a record whose
timestamp lies far in the past. -/
theorem c2_live_one_way_witness :
    ((streamLoop
        { since := JSNum.num 1, speedup := 1,
          lastRecordTimestamp := JSNum.undef, isLiveMode := true }
        [(1000000, { seqNum := 0, timestamp := JSNum.num 3, body := some "old" })]).2).isLiveMode
      = true :=
  c2_live_one_way.2.1 _ _ rfl

/-- C3: a record within the 5-second freshness window moves a replaying
session (truthy `since`, not yet live) to live mode, and once live the
pacing delay is always zero. -/
theorem c3_live_catchup :
    (∀ (st : ClientState) (now : Int) (r : SequencedRecord),
        st.since.truthy = true → st.isLiveMode = false → r.timestamp.truthy = true →
        now - r.timestamp.val ≤ 5000 →
        (processRecord st now r).enteredLive = true ∧
          (processRecord st now r).state.isLiveMode = true)
    ∧ (∀ (st : ClientState) (now : Int) (r : SequencedRecord),
        st.isLiveMode = true → (processRecord st now r).delay = 0) := by
  refine ⟨?_, processRecord_delay_of_live⟩
  intro st now r h1 h2 h3 h4
  have hc : now ≤ 5000 + r.timestamp.val := by omega
  constructor <;> simp [processRecord, h1, h2, h3, hc]

/-- Witness for C3: a record 4000 ms old flips a replaying session to
live. -/
theorem c3_live_catchup_witness :
    (processRecord
      { since := JSNum.num 1, speedup := 1,
        lastRecordTimestamp := JSNum.num 500, isLiveMode := false }
      6000 { seqNum := 0, timestamp := JSNum.num 2000, body := some "hi" }).enteredLive = true ∧
    (processRecord
      { since := JSNum.num 1, speedup := 1,
        lastRecordTimestamp := JSNum.num 500, isLiveMode := false }
      6000 { seqNum := 0, timestamp := JSNum.num 2000, body := some "hi" }).state.isLiveMode
      = true :=
  c3_live_catchup.1 _ 6000 _ (by decide) rfl (by decide) (by decide)

/-- C7: session addressing is the pure template
`sessions/SESSIONID/term_input` and `sessions/SESSIONID/term_output`,
and re-running it on the same session id yields the same pair. -/
theorem c7_session_addressing :
    ∀ sessionNumber : String,
      deriveStreamNames sessionNumber =
        ("sessions/" ++ sessionNumber ++ "/term_input",
         "sessions/" ++ sessionNumber ++ "/term_output") ∧
      deriveStreamNames sessionNumber = deriveStreamNames sessionNumber :=
  fun _ => ⟨rfl, rfl⟩

/-- C6: a failed keystroke or resize append is logged and dropped — the
failing call performs exactly the one append attempt and only adds a
console-error action over the success case — and a whole sequence of
input events produces one append attempt per event no matter which
appends fail. -/
theorem c6_best_effort_input :
    (∀ (stream data : String) (now : Int),
        sendKeystroke stream data now false =
          sendKeystroke stream data now true ++
            [Action.consoleError "Failed to send keystroke to S2:"] ∧
        ((sendKeystroke stream data now false).filter Action.isAppend).length = 1)
    ∧ (∀ (stream : String) (cols rows : Nat) (now : Int),
        ((sendWindowResize stream cols rows now false).filter Action.isAppend).length = 1 ∧
        (sendWindowResize stream cols rows now false).filter Action.isAppend =
          (sendWindowResize stream cols rows now true).filter Action.isAppend ∧
        Action.consoleError "Failed to send window resize to S2:" ∈
          sendWindowResize stream cols rows now false)
    ∧ (∀ (stream : String) (evs : List (InputEvent × Int × Bool)),
        ((forwardInputs stream evs).filter Action.isAppend).length = evs.length) := by
  refine ⟨?_, ?_, forwardInputs_append_count⟩
  · intro stream data now
    exact ⟨by simp [sendKeystroke], by simp [sendKeystroke, Action.isAppend]⟩
  · intro stream cols rows now
    refine ⟨?_, ?_, ?_⟩ <;> simp [sendWindowResize, Action.isAppend]

/-- C8: every input-log append carries exactly the recognized wire
shape — a keystroke event appends one record with the raw bytes as
body, a single `type=keystroke` header and the current wall clock; a
resize appends one record with empty body, `type=window` plus decimal
`rows` and `cols` headers, and the current wall clock. -/
theorem c8_wire_shapes :
    (∀ (stream data : String) (now : Int) (ok : Bool),
        (sendKeystroke stream data now ok).filter Action.isAppend =
          [Action.append stream
            [{ body := data, headers := [("type", "keystroke")], timestamp := now }]])
    ∧ (∀ (stream : String) (cols rows : Nat) (now : Int) (ok : Bool),
        (sendWindowResize stream cols rows now ok).filter Action.isAppend =
          [Action.append stream
            [{ body := "",
               headers :=
                 [("type", "window"), ("rows", toString rows), ("cols", toString cols)],
               timestamp := now }]]) := by
  constructor
  · intro stream data now ok
    cases ok <;> simp [sendKeystroke, Action.isAppend]
  · intro stream cols rows now ok
    cases ok <;> simp [sendWindowResize, windowRecord, Action.isAppend]

/-- C10: while the setup state is anything other than `STREAMING`, a
data event is routed to the setup flow, a resize is only logged, and no
append to the input log occurs. -/
theorem c10_no_append_before_streaming :
    ∀ (setupState : SetupState) (stream : String) (now : Int) (ev : InputEvent) (ok : Bool),
      setupState ≠ SetupState.STREAMING →
      (handleInputEvent setupState stream now ev ok).filter Action.isAppend = [] ∧
      (∀ data, ev = InputEvent.onData data →
        handleInputEvent setupState stream now ev ok = [Action.setupInput data]) ∧
      (∀ cols rows, ev = InputEvent.onResize cols rows →
        handleInputEvent setupState stream now ev ok =
          [Action.consoleLog ("Terminal resized to " ++ toString cols ++ "x" ++
            toString rows)]) := by
  intro setupState stream now ev ok h
  cases ev <;> simp [handleInputEvent, h, Action.isAppend]

/-- Witness for C10: a keystroke typed during `GREETING` produces no
append. -/
theorem c10_no_append_before_streaming_witness :
    (handleInputEvent SetupState.GREETING "sessions/1/term_input" 0
      (InputEvent.onData "a") true).filter Action.isAppend = [] :=
  (c10_no_append_before_streaming SetupState.GREETING "sessions/1/term_input" 0
    (InputEvent.onData "a") true (by decide)).1

/-- C9: an absent `since` parameter, a `since` of `0`, and a
non-numeric `since` are all falsy; in each case the read starts at the
tail with `isLiveMode` set immediately, and neither the pacing delay
nor the replay-to-live catch-up ever fires on any later record. -/
theorem c9_since_falsy_live :
    (computeSince none = JSNum.undef ∧ (computeSince none).truthy = false)
    ∧ (computeSince (some "0") = JSNum.num 0 ∧ (computeSince (some "0")).truthy = false)
    ∧ (computeSince (some "abc") = JSNum.nan ∧ (computeSince (some "abc")).truthy = false)
    ∧ (∀ st : ClientState, st.since.truthy = false →
        chooseReadStart st = (ReadStart.tailOffset 0, { st with isLiveMode := true }))
    ∧ (∀ (st : ClientState) (now : Int) (r : SequencedRecord), st.since.truthy = false →
        (processRecord st now r).delay = 0 ∧ (processRecord st now r).enteredLive = false)
    ∧ (∀ (st : ClientState) (evs : List (Int × SequencedRecord)), st.since.truthy = false →
        ∀ pr ∈ procSteps st evs, pr.delay = 0 ∧ pr.enteredLive = false) := by
  refine ⟨⟨by decide, by decide⟩, ⟨by decide, by decide⟩, ⟨by decide, by decide⟩, ?_,
    processRecord_silent_of_since_falsy,
    fun st evs h => procSteps_silent_of_since_falsy evs st h⟩
  intro st h
  simp [chooseReadStart, h]

/-- Witness for C9: with `since` undefined and the session live, a
delivered record incurs no pacing delay. -/
theorem c9_since_falsy_live_witness :
    (processRecord
      { since := JSNum.undef, speedup := 1,
        lastRecordTimestamp := JSNum.undef, isLiveMode := true }
      100 { seqNum := 0, timestamp := JSNum.num 50, body := some "a" }).delay = 0 :=
  (c9_since_falsy_live.2.2.2.2.1 _ 100 _ (by decide)).1

/-- C5 counterexample: in both a live-start run and a replay run whose
read stream fails, the complete action trace contains exactly the one
initial read request — no re-subscription from the tail or from the
last consumed timestamp follows the failure. -/
theorem c5_counterexample :
    (runStreaming
        { since := JSNum.undef, speedup := 1,
          lastRecordTimestamp := JSNum.undef, isLiveMode := false }
        [(100000, { seqNum := 0, timestamp := JSNum.num 50, body := some "a" })]
        (StreamOutcome.failed "boom")).1 =
      [Action.readRequest (ReadStart.tailOffset 0), Action.render "a",
       Action.consoleError "S2 streaming error: boom",
       Action.writeln "\x1b[31mStreaming error: boom\x1b[0m"] ∧
    (runStreaming
        { since := JSNum.num 1, speedup := 1,
          lastRecordTimestamp := JSNum.undef, isLiveMode := false }
        [(100000, { seqNum := 0, timestamp := JSNum.num 50, body := some "a" })]
        (StreamOutcome.failed "boom")).1 =
      [Action.readRequest (ReadStart.timestamp 1), Action.render "a",
       Action.consoleError "S2 streaming error: boom",
       Action.writeln "\x1b[31mStreaming error: boom\x1b[0m"] := by
  constructor <;> rfl

/-- C5 (amended): read-stream failures trigger no reconnection in
either mode — the initial subscription (from `since` when truthy,
otherwise from the tail) is the only read request in any run, and it
precedes everything else in the trace. -/
theorem c5_no_reconnect :
    ∀ (st : ClientState) (deliveries : List (Int × SequencedRecord))
      (outcome : StreamOutcome),
      ((runStreaming st deliveries outcome).1).filter Action.isReadRequest =
        [Action.readRequest (chooseReadStart st).1] ∧
      ((runStreaming st deliveries outcome).1).head? =
        some (Action.readRequest (chooseReadStart st).1) := by
  intro st deliveries outcome
  exact ⟨runStreaming_readRequests st deliveries outcome, by simp [runStreaming]⟩

/-- C4 counterexample: a replay-mode run that enters live mode while
streaming performs no append at all during streaming — in particular no
window record is sent upon entering `LIVE`. -/
theorem c4_counterexample :
    ({ since := JSNum.num 1, speedup := 1,
       lastRecordTimestamp := JSNum.undef, isLiveMode := false } : ClientState).isLiveMode
        = false ∧
    ((runStreaming
        { since := JSNum.num 1, speedup := 1,
          lastRecordTimestamp := JSNum.undef, isLiveMode := false }
        [(6000, { seqNum := 0, timestamp := JSNum.num 2000, body := some "hi" })]
        StreamOutcome.ended).2).isLiveMode = true ∧
    ((runStreaming
        { since := JSNum.num 1, speedup := 1,
          lastRecordTimestamp := JSNum.undef, isLiveMode := false }
        [(6000, { seqNum := 0, timestamp := JSNum.num 2000, body := some "hi" })]
        StreamOutcome.ended).1).filter Action.isAppend = [] := by
  refine ⟨rfl, rfl, rfl⟩

/-- C4 (amended): a resize observed while `STREAMING` appends exactly
one window record, and one window record is sent immediately upon the
connection succeeding (entering `STREAMING`), at the head of the
connect-and-stream trace and as its only append; the later
`REPLAYING` → `LIVE` transition sends none. -/
theorem c4_window_on_resize_and_connect :
    (∀ (stream : String) (cols rows : Nat) (now : Int) (ok : Bool),
        (handleInputEvent SetupState.STREAMING stream now
            (InputEvent.onResize cols rows) ok).filter Action.isAppend =
          [Action.append stream [windowRecord cols rows now]])
    ∧ (∀ (stream : String) (cols rows : Nat) (now : Int) (ok : Bool) (st : ClientState)
        (deliveries : List (Int × SequencedRecord)) (outcome : StreamOutcome),
        ((connectAndStream stream cols rows now ok st deliveries outcome).2.1).filter
            Action.isAppend =
          [Action.append stream [windowRecord cols rows now]] ∧
        ((connectAndStream stream cols rows now ok st deliveries outcome).2.1).head? =
          some (Action.append stream [windowRecord cols rows now])) := by
  constructor
  · intro stream cols rows now ok
    cases ok <;> simp [handleInputEvent, sendWindowResize, Action.isAppend]
  · intro stream cols rows now ok st deliveries outcome
    constructor
    · simp [connectAndStream, List.filter_append, runStreaming_no_append]
      cases ok <;> simp [sendWindowResize, Action.isAppend]
    · simp [connectAndStream, sendWindowResize]

end S2Term
